import Mathlib

/-!
Verification of the crop-and-resize core
(`tensorflow/core/kernels/crop_and_resize_op.cc`, CPU functors).

The six CPU kernels are embedded shallowly over exact rationals:

* `cropAndResize` / `cropAndResize3D` — the forward resamplers
  (`functor::CropAndResize<CPUDevice,T>` and `CropAndResize3D`);
* `cropAndResizeBackpropImage` / `cropAndResizeBackpropImage3D` — the
  image-gradient kernels, modelled as a left fold over the loop nest in
  source order, each step performing the `+=` updates of one output cell;
* `cropAndResizeBackpropBoxes` / `cropAndResizeBackpropBoxes3D` — the
  box-gradient kernels, same fold style.

Dense tensors are total functions from their index tuples; machine `float`
arithmetic is modelled by exact `ℚ` arithmetic, `floorf`/`ceilf` by
`Int.floor`/`Int.ceil`.  The 3D kernels reproduce the source verbatim,
including the places where the source derives a z corner index from the x
coordinate (`back_z_index = ceilf(in_x)` in the forward kernel,
`front_z_index = floorf(in_x); back_z_index = ceilf(in_x)` in the 3D
image-gradient kernel) and the blend operand `bottom_left_front` in the
forward kernel's `bottom_back` line.
-/

namespace CropAndResizeOp

/-- `FastBoundsCheck(v, bound)` from `tensorflow/core/kernels/bounds_check.h`:
the index `v` is valid iff `0 ≤ v < bound`. -/
def fastBoundsCheck (v : ℤ) (bound : ℕ) : Prop :=
  0 ≤ v ∧ v < (bound : ℤ)

instance (v : ℤ) (bound : ℕ) : Decidable (fastBoundsCheck v bound) := by
  unfold fastBoundsCheck; infer_instance

/-- The out-of-bounds test `in_coord < 0 || in_coord > ext - 1` applied to a
mapped coordinate by every kernel. -/
def outOfBounds (c : ℚ) (ext : ℕ) : Prop :=
  c < 0 ∨ (ext : ℚ) - 1 < c

instance (c : ℚ) (ext : ℕ) : Decidable (outOfBounds c ext) := by
  unfold outOfBounds; infer_instance

/-- Per-axis scale, as computed by the forward and image-gradient kernels:
`(crop > 1) ? (p2 - p1) * (ext - 1) / (crop - 1) : 0`. -/
def scaleOf (p1 p2 : ℚ) (ext crop : ℕ) : ℚ :=
  if 1 < crop then (p2 - p1) * ((ext : ℚ) - 1) / ((crop : ℚ) - 1) else 0

/-- Mapped source coordinate of grid index `i`, as computed by the forward and
image-gradient kernels:
`(crop > 1) ? p1 * (ext - 1) + i * scale : 0.5 * (p1 + p2) * (ext - 1)`. -/
def inCoordFwd (p1 p2 : ℚ) (ext crop i : ℕ) : ℚ :=
  if 1 < crop then p1 * ((ext : ℚ) - 1) + (i : ℚ) * scaleOf p1 p2 ext crop
  else (1/2) * (p1 + p2) * ((ext : ℚ) - 1)

/-- Per-axis ratio, as computed by the box-gradient kernels:
`(crop > 1) ? (ext - 1) / (crop - 1) : 0`. -/
def ratioOf (ext crop : ℕ) : ℚ :=
  if 1 < crop then ((ext : ℚ) - 1) / ((crop : ℚ) - 1) else 0

/-- Mapped source coordinate of grid index `i`, as computed by the box-gradient
kernels, whose scale is `(p2 - p1) * ratio` with `ratio = (ext-1)/(crop-1)`. -/
def inCoordBoxes (p1 p2 : ℚ) (ext crop i : ℕ) : ℚ :=
  if 1 < crop then p1 * ((ext : ℚ) - 1) + (i : ℚ) * ((p2 - p1) * ratioOf ext crop)
  else (1/2) * (p1 + p2) * ((ext : ℚ) - 1)

/-- C2: for every box, every spatial axis with box endpoints `(p1, p2)`, source
extent `ext` and crop extent `crop`, every kernel (the forward and
image-gradient kernels compute the coordinate via `inCoordFwd`, the
box-gradient kernels via `inCoordBoxes`) maps grid index `i` to
`p1*(ext-1) + i*(p2-p1)*(ext-1)/(crop-1)` when `crop > 1`, and to the midpoint
`0.5*(p1+p2)*(ext-1)` when `crop = 1`. -/
theorem inCoord_mapping (p1 p2 : ℚ) (ext crop i : ℕ) :
    (1 < crop →
      inCoordFwd p1 p2 ext crop i
          = p1 * ((ext : ℚ) - 1) + (i : ℚ) * ((p2 - p1) * ((ext : ℚ) - 1) / ((crop : ℚ) - 1)) ∧
      inCoordBoxes p1 p2 ext crop i
          = p1 * ((ext : ℚ) - 1) + (i : ℚ) * ((p2 - p1) * ((ext : ℚ) - 1) / ((crop : ℚ) - 1))) ∧
    (crop = 1 →
      inCoordFwd p1 p2 ext crop i = (1/2) * (p1 + p2) * ((ext : ℚ) - 1) ∧
      inCoordBoxes p1 p2 ext crop i = (1/2) * (p1 + p2) * ((ext : ℚ) - 1)) := by
  constructor
  · intro hcrop
    constructor
    · simp only [inCoordFwd, scaleOf, if_pos hcrop]
    · simp only [inCoordBoxes, ratioOf, if_pos hcrop]
      ring
  · intro hcrop
    subst hcrop
    constructor
    · simp [inCoordFwd]
    · simp [inCoordBoxes]

/-- A 2D box row `(y1, x1, y2, x2)` as read from `boxes(b, 0..3)`. -/
structure Box2 where
  y1 : ℚ
  x1 : ℚ
  y2 : ℚ
  x2 : ℚ

/-- A 3D box row `(y1, x1, z1, y2, x2, z2)` as read from `boxes(b, 0..5)`. -/
structure Box3 where
  y1 : ℚ
  x1 : ℚ
  z1 : ℚ
  y2 : ℚ
  x2 : ℚ
  z2 : ℚ

/-- The in-bounds bilinear interpolation step of the 2D forward kernel:
corner indices by `floorf`/`ceilf` of `in_y` and `in_x`, then the two x-blends
and the final y-blend `top + (bottom - top) * y_lerp`. -/
def bilinearSample (image : ℤ → ℤ → ℤ → ℕ → ℚ) (bIn : ℤ) (inY inX : ℚ) (d : ℕ) : ℚ :=
  let topY := Int.floor inY
  let bottomY := Int.ceil inY
  let yLerp := inY - (topY : ℚ)
  let leftX := Int.floor inX
  let rightX := Int.ceil inX
  let xLerp := inX - (leftX : ℚ)
  let topLeft := image bIn topY leftX d
  let topRight := image bIn topY rightX d
  let bottomLeft := image bIn bottomY leftX d
  let bottomRight := image bIn bottomY rightX d
  let top := topLeft + (topRight - topLeft) * xLerp
  let bottom := bottomLeft + (bottomRight - bottomLeft) * xLerp
  top + (bottom - top) * yLerp

/-- The forward 2D kernel `functor::CropAndResize<CPUDevice, T>::operator()`.
`crops0` is the content of the output buffer before the call; a cell is
rewritten only when its indices are visited by the loop nest and the box
index passes `FastBoundsCheck`. -/
def cropAndResize (image : ℤ → ℤ → ℤ → ℕ → ℚ) (boxes : ℕ → Box2) (boxIndex : ℕ → ℤ)
    (batchSize imageHeight imageWidth : ℕ) (numBoxes cropHeight cropWidth depth : ℕ)
    (extrapolationValue : ℚ) (crops0 : ℕ → ℕ → ℕ → ℕ → ℚ) :
    ℕ → ℕ → ℕ → ℕ → ℚ :=
  fun b y x d =>
    if b < numBoxes ∧ y < cropHeight ∧ x < cropWidth ∧ d < depth then
      if fastBoundsCheck (boxIndex b) batchSize then
        if outOfBounds (inCoordFwd (boxes b).y1 (boxes b).y2 imageHeight cropHeight y)
            imageHeight then
          extrapolationValue
        else if outOfBounds (inCoordFwd (boxes b).x1 (boxes b).x2 imageWidth cropWidth x)
            imageWidth then
          extrapolationValue
        else
          bilinearSample image (boxIndex b)
            (inCoordFwd (boxes b).y1 (boxes b).y2 imageHeight cropHeight y)
            (inCoordFwd (boxes b).x1 (boxes b).x2 imageWidth cropWidth x) d
      else crops0 b y x d
    else crops0 b y x d

/-- The in-bounds trilinear interpolation step of the 3D forward kernel,
exactly as the source writes it: `front_z_index = floorf(in_z)` but
`back_z_index = ceilf(in_x)`, and the `bottom_back` blend subtracts
`bottom_left_front` instead of `bottom_left_back`. -/
def trilinearSample (image : ℤ → ℤ → ℤ → ℤ → ℕ → ℚ) (bIn : ℤ) (inY inX inZ : ℚ)
    (d : ℕ) : ℚ :=
  let topY := Int.floor inY
  let bottomY := Int.ceil inY
  let yLerp := inY - (topY : ℚ)
  let leftX := Int.floor inX
  let rightX := Int.ceil inX
  let xLerp := inX - (leftX : ℚ)
  let frontZ := Int.floor inZ
  let backZ := Int.ceil inX
  let zLerp := inZ - (frontZ : ℚ)
  let topLeftFront := image bIn topY leftX frontZ d
  let topRightFront := image bIn topY rightX frontZ d
  let bottomLeftFront := image bIn bottomY leftX frontZ d
  let bottomRightFront := image bIn bottomY rightX frontZ d
  let topLeftBack := image bIn topY leftX backZ d
  let topRightBack := image bIn topY rightX backZ d
  let bottomLeftBack := image bIn bottomY leftX backZ d
  let bottomRightBack := image bIn bottomY rightX backZ d
  let topFront := topLeftFront + (topRightFront - topLeftFront) * xLerp
  let bottomFront := bottomLeftFront + (bottomRightFront - bottomLeftFront) * xLerp
  let front := topFront + (bottomFront - topFront) * yLerp
  let topBack := topLeftBack + (topRightBack - topLeftBack) * xLerp
  let bottomBack := bottomLeftBack + (bottomRightBack - bottomLeftFront) * xLerp
  let back := topBack + (bottomBack - topBack) * yLerp
  front + (back - front) * zLerp

/-- The trilinear interpolation step as the spec describes it (§3.3–3.4 of the
claim; §4.2–4.3 of the design): both z corner indices taken as
`floor`/`ceil` of `in_z` itself, and every blend of the form
`a + (b - a) * lerp` along x, then y, then z. Used only to contrast with the
source's `trilinearSample`. -/
def trilinearSampleSpec (image : ℤ → ℤ → ℤ → ℤ → ℕ → ℚ) (bIn : ℤ) (inY inX inZ : ℚ)
    (d : ℕ) : ℚ :=
  let topY := Int.floor inY
  let bottomY := Int.ceil inY
  let yLerp := inY - (topY : ℚ)
  let leftX := Int.floor inX
  let rightX := Int.ceil inX
  let xLerp := inX - (leftX : ℚ)
  let frontZ := Int.floor inZ
  let backZ := Int.ceil inZ
  let zLerp := inZ - (frontZ : ℚ)
  let topLeftFront := image bIn topY leftX frontZ d
  let topRightFront := image bIn topY rightX frontZ d
  let bottomLeftFront := image bIn bottomY leftX frontZ d
  let bottomRightFront := image bIn bottomY rightX frontZ d
  let topLeftBack := image bIn topY leftX backZ d
  let topRightBack := image bIn topY rightX backZ d
  let bottomLeftBack := image bIn bottomY leftX backZ d
  let bottomRightBack := image bIn bottomY rightX backZ d
  let topFront := topLeftFront + (topRightFront - topLeftFront) * xLerp
  let bottomFront := bottomLeftFront + (bottomRightFront - bottomLeftFront) * xLerp
  let front := topFront + (bottomFront - topFront) * yLerp
  let topBack := topLeftBack + (topRightBack - topLeftBack) * xLerp
  let bottomBack := bottomLeftBack + (bottomRightBack - bottomLeftBack) * xLerp
  let back := topBack + (bottomBack - topBack) * yLerp
  front + (back - front) * zLerp

/-- The forward 3D kernel `functor::CropAndResize3D<CPUDevice, T>::operator()`,
with the source's z-index and blend defects preserved in `trilinearSample`. -/
def cropAndResize3D (image : ℤ → ℤ → ℤ → ℤ → ℕ → ℚ) (boxes : ℕ → Box3) (boxIndex : ℕ → ℤ)
    (batchSize imageHeight imageWidth imageDepth : ℕ)
    (numBoxes cropHeight cropWidth cropDepth depth : ℕ)
    (extrapolationValue : ℚ) (crops0 : ℕ → ℕ → ℕ → ℕ → ℕ → ℚ) :
    ℕ → ℕ → ℕ → ℕ → ℕ → ℚ :=
  fun b y x z d =>
    if b < numBoxes ∧ y < cropHeight ∧ x < cropWidth ∧ z < cropDepth ∧ d < depth then
      if fastBoundsCheck (boxIndex b) batchSize then
        if outOfBounds (inCoordFwd (boxes b).y1 (boxes b).y2 imageHeight cropHeight y)
            imageHeight then
          extrapolationValue
        else if outOfBounds (inCoordFwd (boxes b).x1 (boxes b).x2 imageWidth cropWidth x)
            imageWidth then
          extrapolationValue
        else if outOfBounds (inCoordFwd (boxes b).z1 (boxes b).z2 imageDepth cropDepth z)
            imageDepth then
          extrapolationValue
        else
          trilinearSample image (boxIndex b)
            (inCoordFwd (boxes b).y1 (boxes b).y2 imageHeight cropHeight y)
            (inCoordFwd (boxes b).x1 (boxes b).x2 imageWidth cropWidth x)
            (inCoordFwd (boxes b).z1 (boxes b).z2 imageDepth cropDepth z) d
      else crops0 b y x z d
    else crops0 b y x z d

/-- Evaluation helper: `Int.ceil` in terms of `Int.floor`, so that `norm_num`
(whose extension evaluates `Int.floor` on rational literals) can also
evaluate `Int.ceil`. -/
lemma ceilAsFloor (a : ℚ) : Int.ceil a = -Int.floor (-a) := by
  simp [Int.floor_neg]

/-- A concrete 3D image batch of shape `[1, 1, 1, 3, 1]` whose single spatial
column holds values `10, 20, 40` along the z axis. -/
def imgZColumn : ℤ → ℤ → ℤ → ℤ → ℕ → ℚ :=
  fun _ _ _ z _ => if z = 0 then 10 else if z = 1 then 20 else 40

/-- A single 3D box `(y1,x1,z1,y2,x2,z2) = (0,0,0,0,0,3/4)`: a point in y and
x, spanning three quarters of the z extent. -/
def boxZSpan : ℕ → Box3 := fun _ => ⟨0, 0, 0, 0, 0, 3/4⟩

/-- All box indices point at image 0. -/
def boxIndexZero : ℕ → ℤ := fun _ => 0

/-- An all-zero 5-D output buffer. -/
def zeros5 : ℕ → ℕ → ℕ → ℕ → ℕ → ℚ := fun _ _ _ _ _ => 0

/-- C1 fails on the code: on image `imgZColumn` (batch 1, spatial extents
`1 × 1 × 3`, one channel), box `(0,0,0,0,0,3/4)` and crop size `1 × 1 × 2`,
the output cell `z = 1` has mapped coordinates `in_y = in_x = 0`,
`in_z = 3/2`; the 3D kernel computes `back_z_index = ceilf(in_x) = 0`
rather than `ceilf(in_z) = 2` (and its `bottom_back` blend subtracts
`bottom_left_front`), producing `15`, whereas the interpolation described by
the claim — floor and ceil of the same axis with blends `a + (b-a)*lerp` —
produces `30`. The 2D kernel, by contrast, does use the same axis
throughout. -/
theorem forward3D_corner_code_bug :
    cropAndResize3D imgZColumn boxZSpan boxIndexZero 1 1 1 3 1 1 1 2 1 0 zeros5 0 0 0 1 0
        = 15 ∧
    trilinearSampleSpec imgZColumn 0 0 0 (3/2) 0 = 30 ∧
    inCoordFwd (boxZSpan 0).z1 (boxZSpan 0).z2 3 2 1 = 3/2 ∧
    Int.ceil ((3:ℚ)/2) = 2 ∧
    (15 : ℚ) ≠ 30 := by
  refine ⟨?_, ?_, ?_, ?_, by norm_num⟩
  · norm_num [cropAndResize3D, trilinearSample, inCoordFwd, scaleOf, outOfBounds,
      fastBoundsCheck, imgZColumn, boxZSpan, boxIndexZero, ceilAsFloor]
  · norm_num [trilinearSampleSpec, imgZColumn, ceilAsFloor]
  · norm_num [inCoordFwd, scaleOf, boxZSpan]
  · norm_num [ceilAsFloor]

/-- A 3D image batch of shape `[1, 1, 3, 2, 1]` that is zero everywhere. -/
def imgFlatA : ℤ → ℤ → ℤ → ℤ → ℕ → ℚ := fun _ _ _ _ _ => 0

/-- Like `imgFlatA` but holding `8` on the (nonexistent, out-of-range) plane
`z = 2`; the two images agree on every in-range index of a
`[1, 1, 3, 2, 1]`-shaped batch, whose valid z indices are `0` and `1`. -/
def imgFlatB : ℤ → ℤ → ℤ → ℤ → ℕ → ℚ := fun _ _ _ z _ => if z = 2 then 8 else 0

/-- A single 3D box `(0,0,0,0,1,1)`: a point in y, full extent in x and z. -/
def boxXZFull : ℕ → Box3 := fun _ => ⟨0, 0, 0, 0, 1, 1⟩

/-- C10 fails on the code: on a `[1, 1, 3, 2, 1]` image, box `(0,0,0,0,1,1)`
and crop size `1 × 3 × 1`, the output cell `x = 2` has mapped coordinates
`in_x = 2` and `in_z = 1/2`, both in-bounds on their axes; yet the 3D
forward kernel uses `back_z_index = ceilf(in_x) = 2` as a z index, which
exceeds `image_depth - 1 = 1`: the element access is out of bounds. Two
images agreeing on every valid index (z ∈ {0, 1}) produce different
outputs, so the kernel really reads the out-of-range plane `z = 2`. The 3D
image-gradient kernel likewise derives both z indices from `in_x`. -/
theorem forward3D_oob_access_code_bug :
    (¬ outOfBounds (inCoordFwd 0 1 3 3 2) 3) ∧
    (¬ outOfBounds (inCoordFwd 0 1 2 1 0) 2) ∧
    Int.ceil (inCoordFwd 0 1 3 3 2) = 2 ∧
    ¬ (Int.ceil (inCoordFwd 0 1 3 3 2) ≤ (2 : ℤ) - 1) ∧
    (∀ (bb yy xx : ℤ) (dd : ℕ),
      imgFlatA bb yy xx 0 dd = imgFlatB bb yy xx 0 dd ∧
      imgFlatA bb yy xx 1 dd = imgFlatB bb yy xx 1 dd) ∧
    cropAndResize3D imgFlatA boxXZFull boxIndexZero 1 1 3 2 1 1 3 1 1 0 zeros5 0 0 2 0 0
        = 0 ∧
    cropAndResize3D imgFlatB boxXZFull boxIndexZero 1 1 3 2 1 1 3 1 1 0 zeros5 0 0 2 0 0
        = 4 := by
  refine ⟨?_, ?_, ?_, ?_, ?_, ?_, ?_⟩
  · norm_num [outOfBounds, inCoordFwd, scaleOf]
  · norm_num [outOfBounds, inCoordFwd]
  · norm_num [inCoordFwd, scaleOf, ceilAsFloor]
  · norm_num [inCoordFwd, scaleOf, ceilAsFloor]
  · intro bb yy xx dd
    norm_num [imgFlatA, imgFlatB]
  · norm_num [cropAndResize3D, trilinearSample, inCoordFwd, scaleOf, outOfBounds,
      fastBoundsCheck, imgFlatA, boxXZFull, boxIndexZero, ceilAsFloor]
  · norm_num [cropAndResize3D, trilinearSample, inCoordFwd, scaleOf, outOfBounds,
      fastBoundsCheck, imgFlatB, boxXZFull, boxIndexZero, ceilAsFloor]

/-- For the full-extent box endpoints `(0, 1)` and `crop = ext`, the mapped
coordinate of grid index `i < ext` is `i` itself. -/
lemma inCoord_full_box (ext i : ℕ) (hi : i < ext) :
    inCoordFwd 0 1 ext ext i = (i : ℚ) := by
  unfold inCoordFwd scaleOf
  by_cases h1 : 1 < ext
  · have hne : ((ext : ℚ) - 1) ≠ 0 := by
      have : (1 : ℚ) < (ext : ℚ) := by exact_mod_cast h1
      linarith
    rw [if_pos h1, if_pos h1]
    field_simp
  · have hext : ext = 1 := by omega
    have hi0 : i = 0 := by omega
    subst hext hi0
    norm_num

/-- A grid index below the extent is never an out-of-bounds coordinate. -/
lemma not_outOfBounds_natCast (ext i : ℕ) (hi : i < ext) :
    ¬ outOfBounds (i : ℚ) ext := by
  have h0 : (0 : ℚ) ≤ (i : ℚ) := Nat.cast_nonneg i
  have h1 : (i : ℚ) + 1 ≤ (ext : ℚ) := by exact_mod_cast hi
  rintro (hc | hc) <;> linarith

/-- Bilinear interpolation at integer-aligned coordinates reads back the
sample itself: floor and ceil coincide and both lerp weights vanish. -/
lemma bilinearSample_intCoord (image : ℤ → ℤ → ℤ → ℕ → ℚ) (j : ℤ) (y x d : ℕ) :
    bilinearSample image j (y : ℚ) (x : ℚ) d = image j (y : ℤ) (x : ℤ) d := by
  unfold bilinearSample
  simp [Int.floor_natCast, Int.ceil_natCast]

/-- C7: for every 2D image and every box exactly covering the full image
(normalized box `(0,0,1,1)`) with crop size equal to the image's spatial
size, the forward resampler reproduces the source image exactly at every
output cell. -/
theorem crop_identity
    (image : ℤ → ℤ → ℤ → ℕ → ℚ) (boxes : ℕ → Box2) (boxIndex : ℕ → ℤ)
    (batchSize h w numBoxes depth : ℕ) (extrap : ℚ) (crops0 : ℕ → ℕ → ℕ → ℕ → ℚ)
    (b y x d : ℕ) (hb : b < numBoxes) (hy : y < h) (hx : x < w) (hd : d < depth)
    (hbox : boxes b = ⟨0, 0, 1, 1⟩) (hvalid : fastBoundsCheck (boxIndex b) batchSize) :
    cropAndResize image boxes boxIndex batchSize h w numBoxes h w depth extrap crops0 b y x d
      = image (boxIndex b) (y : ℤ) (x : ℤ) d := by
  unfold cropAndResize
  rw [if_pos ⟨hb, hy, hx, hd⟩, if_pos hvalid, hbox]
  dsimp only
  rw [inCoord_full_box h y hy, inCoord_full_box w x hx,
    if_neg (not_outOfBounds_natCast h y hy), if_neg (not_outOfBounds_natCast w x hx),
    bilinearSample_intCoord]

/-- The concrete `[1,2,2,1]` image of the spec's identity scenario, with
values `[[0,1],[2,3]]`. -/
def img22 : ℤ → ℤ → ℤ → ℕ → ℚ :=
  fun _ yy xx _ =>
    if yy = 0 ∧ xx = 0 then 0
    else if yy = 0 ∧ xx = 1 then 1
    else if yy = 1 ∧ xx = 0 then 2
    else 3

/-- The full-extent 2D box `(0,0,1,1)`. -/
def boxFull2 : ℕ → Box2 := fun _ => ⟨0, 0, 1, 1⟩

/-- An all-zero 4-D output buffer. -/
def zeros4 : ℕ → ℕ → ℕ → ℕ → ℚ := fun _ _ _ _ => 0

/-- Witness for `crop_identity`: the spec's concrete scenario — image
`[[0,1],[2,3]]`, box `(0,0,1,1)`, crop size `2 × 2` — yields exactly
`[[0,1],[2,3]]`. -/
theorem crop_identity_witness :
    cropAndResize img22 boxFull2 boxIndexZero 1 2 2 1 2 2 1 7 zeros4 0 0 0 0 = 0 ∧
    cropAndResize img22 boxFull2 boxIndexZero 1 2 2 1 2 2 1 7 zeros4 0 0 1 0 = 1 ∧
    cropAndResize img22 boxFull2 boxIndexZero 1 2 2 1 2 2 1 7 zeros4 0 1 0 0 = 2 ∧
    cropAndResize img22 boxFull2 boxIndexZero 1 2 2 1 2 2 1 7 zeros4 0 1 1 0 = 3 :=
  ⟨crop_identity img22 boxFull2 boxIndexZero 1 2 2 1 1 7 zeros4 0 0 0 0
      (by decide) (by decide) (by decide) (by decide) rfl (by decide),
   crop_identity img22 boxFull2 boxIndexZero 1 2 2 1 1 7 zeros4 0 0 1 0
      (by decide) (by decide) (by decide) (by decide) rfl (by decide),
   crop_identity img22 boxFull2 boxIndexZero 1 2 2 1 1 7 zeros4 0 1 0 0
      (by decide) (by decide) (by decide) (by decide) rfl (by decide),
   crop_identity img22 boxFull2 boxIndexZero 1 2 2 1 1 7 zeros4 0 1 1 0
      (by decide) (by decide) (by decide) (by decide) rfl (by decide)⟩

/-- One `+=` update of a 4-D accumulator array at index `(bi, ty, lx, d)`. -/
def addAtImage (g : ℤ → ℤ → ℤ → ℕ → ℚ) (bi ty lx : ℤ) (d : ℕ) (v : ℚ) :
    ℤ → ℤ → ℤ → ℕ → ℚ :=
  fun b2 y2 x2 d2 =>
    if b2 = bi ∧ y2 = ty ∧ x2 = lx ∧ d2 = d then g b2 y2 x2 d2 + v else g b2 y2 x2 d2

/-- One `+=` update of a 5-D accumulator array at index `(bi, ty, lx, fz, d)`. -/
def addAtImage3 (g : ℤ → ℤ → ℤ → ℤ → ℕ → ℚ) (bi ty lx fz : ℤ) (d : ℕ) (v : ℚ) :
    ℤ → ℤ → ℤ → ℤ → ℕ → ℚ :=
  fun b2 y2 x2 z2 d2 =>
    if b2 = bi ∧ y2 = ty ∧ x2 = lx ∧ z2 = fz ∧ d2 = d then g b2 y2 x2 z2 d2 + v
    else g b2 y2 x2 z2 d2

/-- The body of the 2D image-gradient loop nest for one output cell
`(b, y, x, d)`: skip on an invalid box index or an out-of-bounds mapped
coordinate, otherwise perform the four `+=` scatters of
`functor::CropAndResizeBackpropImage<CPUDevice, T>` in source order. -/
def backpropImageCell (grads : ℕ → ℕ → ℕ → ℕ → ℚ) (boxes : ℕ → Box2) (boxIndex : ℕ → ℤ)
    (batchSize imageHeight imageWidth cropHeight cropWidth : ℕ)
    (g : ℤ → ℤ → ℤ → ℕ → ℚ) (b y x d : ℕ) : ℤ → ℤ → ℤ → ℕ → ℚ :=
  if fastBoundsCheck (boxIndex b) batchSize then
    if outOfBounds (inCoordFwd (boxes b).y1 (boxes b).y2 imageHeight cropHeight y)
        imageHeight then g
    else if outOfBounds (inCoordFwd (boxes b).x1 (boxes b).x2 imageWidth cropWidth x)
        imageWidth then g
    else
      let inY := inCoordFwd (boxes b).y1 (boxes b).y2 imageHeight cropHeight y
      let inX := inCoordFwd (boxes b).x1 (boxes b).x2 imageWidth cropWidth x
      let topY := Int.floor inY
      let bottomY := Int.ceil inY
      let yLerp := inY - (topY : ℚ)
      let leftX := Int.floor inX
      let rightX := Int.ceil inX
      let xLerp := inX - (leftX : ℚ)
      let dtop := (1 - yLerp) * grads b y x d
      let g1 := addAtImage g (boxIndex b) topY leftX d ((1 - xLerp) * dtop)
      let g2 := addAtImage g1 (boxIndex b) topY rightX d (xLerp * dtop)
      let dbottom := yLerp * grads b y x d
      let g3 := addAtImage g2 (boxIndex b) bottomY leftX d ((1 - xLerp) * dbottom)
      addAtImage g3 (boxIndex b) bottomY rightX d (xLerp * dbottom)
  else g

/-- The `(b, y, x, d)` loop nest of the 2D kernels, flattened in source
iteration order. -/
def cellList4 (numBoxes cropHeight cropWidth depth : ℕ) : List (ℕ × ℕ × ℕ × ℕ) :=
  (List.range numBoxes).flatMap fun b =>
    (List.range cropHeight).flatMap fun y =>
      (List.range cropWidth).flatMap fun x =>
        (List.range depth).map fun d => (b, y, x, d)

/-- The 2D image-gradient kernel
`functor::CropAndResizeBackpropImage<CPUDevice, T>::operator()`:
`grads_image.setZero()` followed by the scatter loop nest. -/
def cropAndResizeBackpropImage (grads : ℕ → ℕ → ℕ → ℕ → ℚ) (boxes : ℕ → Box2)
    (boxIndex : ℕ → ℤ) (batchSize imageHeight imageWidth : ℕ)
    (numBoxes cropHeight cropWidth depth : ℕ) : ℤ → ℤ → ℤ → ℕ → ℚ :=
  (cellList4 numBoxes cropHeight cropWidth depth).foldl
    (fun g c =>
      backpropImageCell grads boxes boxIndex batchSize imageHeight imageWidth
        cropHeight cropWidth g c.1 c.2.1 c.2.2.1 c.2.2.2)
    (fun _ _ _ _ => 0)

/-- The body of the 3D image-gradient loop nest for one output cell
`(b, y, x, z, d)`, exactly as
`functor::CropAndResizeBackpropImage3D<CPUDevice, T>` writes it — including
`front_z_index = floorf(in_x)` and `back_z_index = ceilf(in_x)` (both
derived from the x coordinate) with `z_lerp = in_z - front_z_index`. -/
def backpropImage3DCell (grads : ℕ → ℕ → ℕ → ℕ → ℕ → ℚ) (boxes : ℕ → Box3)
    (boxIndex : ℕ → ℤ)
    (batchSize imageHeight imageWidth imageDepth cropHeight cropWidth cropDepth : ℕ)
    (g : ℤ → ℤ → ℤ → ℤ → ℕ → ℚ) (b y x z d : ℕ) : ℤ → ℤ → ℤ → ℤ → ℕ → ℚ :=
  if fastBoundsCheck (boxIndex b) batchSize then
    if outOfBounds (inCoordFwd (boxes b).y1 (boxes b).y2 imageHeight cropHeight y)
        imageHeight then g
    else if outOfBounds (inCoordFwd (boxes b).x1 (boxes b).x2 imageWidth cropWidth x)
        imageWidth then g
    else if outOfBounds (inCoordFwd (boxes b).z1 (boxes b).z2 imageDepth cropDepth z)
        imageDepth then g
    else
      let inY := inCoordFwd (boxes b).y1 (boxes b).y2 imageHeight cropHeight y
      let inX := inCoordFwd (boxes b).x1 (boxes b).x2 imageWidth cropWidth x
      let inZ := inCoordFwd (boxes b).z1 (boxes b).z2 imageDepth cropDepth z
      let topY := Int.floor inY
      let bottomY := Int.ceil inY
      let yLerp := inY - (topY : ℚ)
      let leftX := Int.floor inX
      let rightX := Int.ceil inX
      let xLerp := inX - (leftX : ℚ)
      let frontZ := Int.floor inX
      let backZ := Int.ceil inX
      let zLerp := inZ - (frontZ : ℚ)
      let dback := zLerp * grads b y x z d
      let dfront := (1 - zLerp) * grads b y x z d
      let dbottomBack := yLerp * dback
      let dtopBack := (1 - yLerp) * dback
      let dtopFront := (1 - yLerp) * dfront
      let dbottomFront := yLerp * dfront
      let g1 := addAtImage3 g (boxIndex b) topY leftX frontZ d ((1 - xLerp) * dtopFront)
      let g2 := addAtImage3 g1 (boxIndex b) topY rightX frontZ d (xLerp * dtopFront)
      let g3 := addAtImage3 g2 (boxIndex b) bottomY leftX frontZ d ((1 - xLerp) * dbottomFront)
      let g4 := addAtImage3 g3 (boxIndex b) bottomY rightX frontZ d (xLerp * dbottomFront)
      let g5 := addAtImage3 g4 (boxIndex b) topY leftX backZ d ((1 - xLerp) * dtopBack)
      let g6 := addAtImage3 g5 (boxIndex b) topY rightX backZ d (xLerp * dtopBack)
      let g7 := addAtImage3 g6 (boxIndex b) bottomY leftX backZ d ((1 - xLerp) * dbottomBack)
      addAtImage3 g7 (boxIndex b) bottomY rightX backZ d (xLerp * dbottomBack)
  else g

/-- The `(b, y, x, z, d)` loop nest of the 3D kernels, flattened in source
iteration order. -/
def cellList5 (numBoxes cropHeight cropWidth cropDepth depth : ℕ) :
    List (ℕ × ℕ × ℕ × ℕ × ℕ) :=
  (List.range numBoxes).flatMap fun b =>
    (List.range cropHeight).flatMap fun y =>
      (List.range cropWidth).flatMap fun x =>
        (List.range cropDepth).flatMap fun z =>
          (List.range depth).map fun d => (b, y, x, z, d)

/-- The 3D image-gradient kernel
`functor::CropAndResizeBackpropImage3D<CPUDevice, T>::operator()`:
`grads_image.setZero()` followed by the scatter loop nest. -/
def cropAndResizeBackpropImage3D (grads : ℕ → ℕ → ℕ → ℕ → ℕ → ℚ) (boxes : ℕ → Box3)
    (boxIndex : ℕ → ℤ) (batchSize imageHeight imageWidth imageDepth : ℕ)
    (numBoxes cropHeight cropWidth cropDepth depth : ℕ) : ℤ → ℤ → ℤ → ℤ → ℕ → ℚ :=
  (cellList5 numBoxes cropHeight cropWidth cropDepth depth).foldl
    (fun g c =>
      backpropImage3DCell grads boxes boxIndex batchSize imageHeight imageWidth
        imageDepth cropHeight cropWidth cropDepth g c.1 c.2.1 c.2.2.1 c.2.2.2.1 c.2.2.2.2)
    (fun _ _ _ _ _ => 0)

/-- An all-one 5-D incoming-gradient array. -/
def ones5 : ℕ → ℕ → ℕ → ℕ → ℕ → ℚ := fun _ _ _ _ _ => 1

/-- C3 fails on the code: with image shape `[1, 1, 1, 3, 1]`, box
`(0,0,0,0,0,3/4)`, crop size `1 × 1 × 2` and a uniform incoming gradient of
`1`, the output cell `z = 1` maps to `in_z = 3/2`, whose enclosing z corners
are `floor(3/2) = 1` and `ceil(3/2) = 2`; yet the 3D image-gradient kernel
derives both z indices from `in_x = 0`, so the whole gradient mass `2` lands
on the plane `z = 0` and the enclosing corner planes `z = 1` and `z = 2`
receive nothing (instead of `1/2` each on top of plane 0's own `1`). -/
theorem backpropImage3D_corner_code_bug :
    Int.floor (inCoordFwd (boxZSpan 0).z1 (boxZSpan 0).z2 3 2 1) = 1 ∧
    Int.ceil (inCoordFwd (boxZSpan 0).z1 (boxZSpan 0).z2 3 2 1) = 2 ∧
    cropAndResizeBackpropImage3D ones5 boxZSpan boxIndexZero 1 1 1 3 1 1 1 2 1 0 0 0 0 0
        = 2 ∧
    cropAndResizeBackpropImage3D ones5 boxZSpan boxIndexZero 1 1 1 3 1 1 1 2 1 0 0 0 1 0
        = 0 ∧
    cropAndResizeBackpropImage3D ones5 boxZSpan boxIndexZero 1 1 1 3 1 1 1 2 1 0 0 0 2 0
        = 0 := by
  have hlist : cellList5 1 1 1 2 1 = [(0, 0, 0, 0, 0), (0, 0, 0, 1, 0)] := rfl
  refine ⟨?_, ?_, ?_, ?_, ?_⟩
  · norm_num [inCoordFwd, scaleOf, boxZSpan]
  · norm_num [inCoordFwd, scaleOf, boxZSpan, ceilAsFloor]
  all_goals
    simp only [cropAndResizeBackpropImage3D, hlist, List.foldl]
    norm_num [backpropImage3DCell, addAtImage3, inCoordFwd, scaleOf, outOfBounds,
      fastBoundsCheck, ones5, boxZSpan, boxIndexZero, ceilAsFloor]

/-- One `+=` update of a `[num_boxes, 4|6]` box-gradient accumulator at
`(b, k)`. -/
def addAtBoxes (g : ℕ → ℕ → ℚ) (b k : ℕ) (v : ℚ) : ℕ → ℕ → ℚ :=
  fun b2 k2 => if b2 = b ∧ k2 = k then g b2 k2 + v else g b2 k2

/-- The body of the 2D box-gradient loop nest for one output cell
`(b, y, x, d)`, as in `functor::CropAndResizeBackpropBoxes<CPUDevice, T>`:
skip on invalid box index or out-of-bounds coordinates, otherwise compute
the bilinear corner samples, the finite-difference derivatives
`image_grad_y` / `image_grad_x` modulated by the incoming gradient, and
perform the four `+=` updates on `(b,0), (b,2), (b,1), (b,3)` in source
order. -/
def backpropBoxesCell (grads : ℕ → ℕ → ℕ → ℕ → ℚ) (image : ℤ → ℤ → ℤ → ℕ → ℚ)
    (boxes : ℕ → Box2) (boxIndex : ℕ → ℤ)
    (batchSize imageHeight imageWidth cropHeight cropWidth : ℕ)
    (g : ℕ → ℕ → ℚ) (b y x d : ℕ) : ℕ → ℕ → ℚ :=
  if fastBoundsCheck (boxIndex b) batchSize then
    if outOfBounds (inCoordBoxes (boxes b).y1 (boxes b).y2 imageHeight cropHeight y)
        imageHeight then g
    else if outOfBounds (inCoordBoxes (boxes b).x1 (boxes b).x2 imageWidth cropWidth x)
        imageWidth then g
    else
      let inY := inCoordBoxes (boxes b).y1 (boxes b).y2 imageHeight cropHeight y
      let inX := inCoordBoxes (boxes b).x1 (boxes b).x2 imageWidth cropWidth x
      let topY := Int.floor inY
      let bottomY := Int.ceil inY
      let yLerp := inY - (topY : ℚ)
      let leftX := Int.floor inX
      let rightX := Int.ceil inX
      let xLerp := inX - (leftX : ℚ)
      let topLeft := image (boxIndex b) topY leftX d
      let topRight := image (boxIndex b) topY rightX d
      let bottomLeft := image (boxIndex b) bottomY leftX d
      let bottomRight := image (boxIndex b) bottomY rightX d
      let imageGradY := ((1 - xLerp) * (bottomLeft - topLeft)
          + xLerp * (bottomRight - topRight)) * grads b y x d
      let imageGradX := ((1 - yLerp) * (topRight - topLeft)
          + yLerp * (bottomRight - bottomLeft)) * grads b y x d
      let g1 := addAtBoxes g b 0
        (if 1 < cropHeight then
          imageGradY * ((imageHeight : ℚ) - 1 - (y : ℚ) * ratioOf imageHeight cropHeight)
        else imageGradY * (1/2) * ((imageHeight : ℚ) - 1))
      let g2 := addAtBoxes g1 b 2
        (if 1 < cropHeight then
          imageGradY * ((y : ℚ) * ratioOf imageHeight cropHeight)
        else imageGradY * (1/2) * ((imageHeight : ℚ) - 1))
      let g3 := addAtBoxes g2 b 1
        (if 1 < cropWidth then
          imageGradX * ((imageWidth : ℚ) - 1 - (x : ℚ) * ratioOf imageWidth cropWidth)
        else imageGradX * (1/2) * ((imageWidth : ℚ) - 1))
      addAtBoxes g3 b 3
        (if 1 < cropWidth then
          imageGradX * ((x : ℚ) * ratioOf imageWidth cropWidth)
        else imageGradX * (1/2) * ((imageWidth : ℚ) - 1))
  else g

/-- The 2D box-gradient kernel
`functor::CropAndResizeBackpropBoxes<CPUDevice, T>::operator()`:
`grads_boxes.setZero()` followed by the accumulation loop nest. -/
def cropAndResizeBackpropBoxes (grads : ℕ → ℕ → ℕ → ℕ → ℚ) (image : ℤ → ℤ → ℤ → ℕ → ℚ)
    (boxes : ℕ → Box2) (boxIndex : ℕ → ℤ) (batchSize imageHeight imageWidth : ℕ)
    (numBoxes cropHeight cropWidth depth : ℕ) : ℕ → ℕ → ℚ :=
  (cellList4 numBoxes cropHeight cropWidth depth).foldl
    (fun g c =>
      backpropBoxesCell grads image boxes boxIndex batchSize imageHeight imageWidth
        cropHeight cropWidth g c.1 c.2.1 c.2.2.1 c.2.2.2)
    (fun _ _ => 0)

/-- The body of the 3D box-gradient loop nest for one output cell
`(b, y, x, z, d)`, as in `functor::CropAndResizeBackpropBoxes3D`; here the
source derives both z corner indices from `in_z` itself. The six `+=`
updates hit `(b,0), (b,3), (b,1), (b,4), (b,2), (b,5)` in source order. -/
def backpropBoxes3DCell (grads : ℕ → ℕ → ℕ → ℕ → ℕ → ℚ)
    (image : ℤ → ℤ → ℤ → ℤ → ℕ → ℚ) (boxes : ℕ → Box3) (boxIndex : ℕ → ℤ)
    (batchSize imageHeight imageWidth imageDepth cropHeight cropWidth cropDepth : ℕ)
    (g : ℕ → ℕ → ℚ) (b y x z d : ℕ) : ℕ → ℕ → ℚ :=
  if fastBoundsCheck (boxIndex b) batchSize then
    if outOfBounds (inCoordBoxes (boxes b).y1 (boxes b).y2 imageHeight cropHeight y)
        imageHeight then g
    else if outOfBounds (inCoordBoxes (boxes b).x1 (boxes b).x2 imageWidth cropWidth x)
        imageWidth then g
    else if outOfBounds (inCoordBoxes (boxes b).z1 (boxes b).z2 imageDepth cropDepth z)
        imageDepth then g
    else
      let inY := inCoordBoxes (boxes b).y1 (boxes b).y2 imageHeight cropHeight y
      let inX := inCoordBoxes (boxes b).x1 (boxes b).x2 imageWidth cropWidth x
      let inZ := inCoordBoxes (boxes b).z1 (boxes b).z2 imageDepth cropDepth z
      let topY := Int.floor inY
      let bottomY := Int.ceil inY
      let yLerp := inY - (topY : ℚ)
      let leftX := Int.floor inX
      let rightX := Int.ceil inX
      let xLerp := inX - (leftX : ℚ)
      let frontZ := Int.floor inZ
      let backZ := Int.ceil inZ
      let zLerp := inZ - (frontZ : ℚ)
      let topLeftFront := image (boxIndex b) topY leftX frontZ d
      let topRightFront := image (boxIndex b) topY rightX frontZ d
      let bottomLeftFront := image (boxIndex b) bottomY leftX frontZ d
      let bottomRightFront := image (boxIndex b) bottomY rightX frontZ d
      let topLeftBack := image (boxIndex b) topY leftX backZ d
      let topRightBack := image (boxIndex b) topY rightX backZ d
      let bottomLeftBack := image (boxIndex b) bottomY leftX backZ d
      let bottomRightBack := image (boxIndex b) bottomY rightX backZ d
      let imageGradY := ((1 - zLerp) * ((1 - xLerp) * (bottomLeftFront - topLeftFront)
            + xLerp * (bottomRightFront - topRightFront))
          + zLerp * ((1 - xLerp) * (bottomLeftBack - topLeftBack)
            + xLerp * (bottomRightBack - topRightBack))) * grads b y x z d
      let imageGradX := ((1 - zLerp) * ((1 - yLerp) * (topRightFront - topLeftFront)
            + yLerp * (bottomRightFront - bottomLeftFront))
          + zLerp * ((1 - yLerp) * (topRightBack - topLeftBack)
            + yLerp * (bottomRightBack - bottomLeftBack))) * grads b y x z d
      let imageGradZ := ((1 - yLerp) * ((1 - xLerp) * (topLeftBack - topLeftFront)
            + xLerp * (topRightBack - topRightFront))
          + yLerp * ((1 - xLerp) * (bottomLeftBack - bottomLeftFront)
            + xLerp * (bottomRightBack - bottomRightFront))) * grads b y x z d
      let g1 := addAtBoxes g b 0
        (if 1 < cropHeight then
          imageGradY * ((imageHeight : ℚ) - 1 - (y : ℚ) * ratioOf imageHeight cropHeight)
        else imageGradY * (1/2) * ((imageHeight : ℚ) - 1))
      let g2 := addAtBoxes g1 b 3
        (if 1 < cropHeight then
          imageGradY * ((y : ℚ) * ratioOf imageHeight cropHeight)
        else imageGradY * (1/2) * ((imageHeight : ℚ) - 1))
      let g3 := addAtBoxes g2 b 1
        (if 1 < cropWidth then
          imageGradX * ((imageWidth : ℚ) - 1 - (x : ℚ) * ratioOf imageWidth cropWidth)
        else imageGradX * (1/2) * ((imageWidth : ℚ) - 1))
      let g4 := addAtBoxes g3 b 4
        (if 1 < cropWidth then
          imageGradX * ((x : ℚ) * ratioOf imageWidth cropWidth)
        else imageGradX * (1/2) * ((imageWidth : ℚ) - 1))
      let g5 := addAtBoxes g4 b 2
        (if 1 < cropDepth then
          imageGradZ * ((imageDepth : ℚ) - 1 - (z : ℚ) * ratioOf imageDepth cropDepth)
        else imageGradZ * (1/2) * ((imageDepth : ℚ) - 1))
      addAtBoxes g5 b 5
        (if 1 < cropDepth then
          imageGradZ * ((z : ℚ) * ratioOf imageDepth cropDepth)
        else imageGradZ * (1/2) * ((imageDepth : ℚ) - 1))
  else g

/-- The 3D box-gradient kernel
`functor::CropAndResizeBackpropBoxes3D<CPUDevice, T>::operator()`:
`grads_boxes.setZero()` followed by the accumulation loop nest. -/
def cropAndResizeBackpropBoxes3D (grads : ℕ → ℕ → ℕ → ℕ → ℕ → ℚ)
    (image : ℤ → ℤ → ℤ → ℤ → ℕ → ℚ) (boxes : ℕ → Box3) (boxIndex : ℕ → ℤ)
    (batchSize imageHeight imageWidth imageDepth : ℕ)
    (numBoxes cropHeight cropWidth cropDepth depth : ℕ) : ℕ → ℕ → ℚ :=
  (cellList5 numBoxes cropHeight cropWidth cropDepth depth).foldl
    (fun g c =>
      backpropBoxes3DCell grads image boxes boxIndex batchSize imageHeight imageWidth
        imageDepth cropHeight cropWidth cropDepth g c.1 c.2.1 c.2.2.1 c.2.2.2.1 c.2.2.2.2)
    (fun _ _ => 0)

/-- The amount the 2D box-gradient loop body for cell `c = (b, y, x, d)` adds
to accumulator entry `(b2, k2)`: zero unless `b2 = b`, the box index is
valid and the cell is in-bounds; otherwise the per-axis derivative times the
endpoint weight — for `crop > 1` the weights `(ext-1 - i*ratio)` on the
first endpoint and `(i*ratio)` on the second, for `crop = 1` the weight
`0.5*(ext-1)` on both. -/
def boxGradCellDelta (grads : ℕ → ℕ → ℕ → ℕ → ℚ) (image : ℤ → ℤ → ℤ → ℕ → ℚ)
    (boxes : ℕ → Box2) (boxIndex : ℕ → ℤ)
    (batchSize imageHeight imageWidth cropHeight cropWidth : ℕ)
    (c : ℕ × ℕ × ℕ × ℕ) (b2 k2 : ℕ) : ℚ :=
  let b := c.1
  let y := c.2.1
  let x := c.2.2.1
  let d := c.2.2.2
  if fastBoundsCheck (boxIndex b) batchSize
      ∧ ¬ outOfBounds (inCoordBoxes (boxes b).y1 (boxes b).y2 imageHeight cropHeight y)
          imageHeight
      ∧ ¬ outOfBounds (inCoordBoxes (boxes b).x1 (boxes b).x2 imageWidth cropWidth x)
          imageWidth
      ∧ b2 = b then
    let inY := inCoordBoxes (boxes b).y1 (boxes b).y2 imageHeight cropHeight y
    let inX := inCoordBoxes (boxes b).x1 (boxes b).x2 imageWidth cropWidth x
    let topY := Int.floor inY
    let bottomY := Int.ceil inY
    let yLerp := inY - (topY : ℚ)
    let leftX := Int.floor inX
    let rightX := Int.ceil inX
    let xLerp := inX - (leftX : ℚ)
    let topLeft := image (boxIndex b) topY leftX d
    let topRight := image (boxIndex b) topY rightX d
    let bottomLeft := image (boxIndex b) bottomY leftX d
    let bottomRight := image (boxIndex b) bottomY rightX d
    let imageGradY := ((1 - xLerp) * (bottomLeft - topLeft)
        + xLerp * (bottomRight - topRight)) * grads b y x d
    let imageGradX := ((1 - yLerp) * (topRight - topLeft)
        + yLerp * (bottomRight - bottomLeft)) * grads b y x d
    if k2 = 0 then
      if 1 < cropHeight then
        imageGradY * ((imageHeight : ℚ) - 1 - (y : ℚ) * ratioOf imageHeight cropHeight)
      else imageGradY * (1/2) * ((imageHeight : ℚ) - 1)
    else if k2 = 2 then
      if 1 < cropHeight then
        imageGradY * ((y : ℚ) * ratioOf imageHeight cropHeight)
      else imageGradY * (1/2) * ((imageHeight : ℚ) - 1)
    else if k2 = 1 then
      if 1 < cropWidth then
        imageGradX * ((imageWidth : ℚ) - 1 - (x : ℚ) * ratioOf imageWidth cropWidth)
      else imageGradX * (1/2) * ((imageWidth : ℚ) - 1)
    else if k2 = 3 then
      if 1 < cropWidth then
        imageGradX * ((x : ℚ) * ratioOf imageWidth cropWidth)
      else imageGradX * (1/2) * ((imageWidth : ℚ) - 1)
    else 0
  else 0

/-- Pointwise evaluation of one `+=` update of the box-gradient accumulator. -/
lemma addAtBoxes_eval (g : ℕ → ℕ → ℚ) (b k : ℕ) (v : ℚ) (b2 k2 : ℕ) :
    addAtBoxes g b k v b2 k2 = if b2 = b ∧ k2 = k then g b2 k2 + v else g b2 k2 :=
  rfl

/-- A left fold of pointwise-additive steps evaluates, at every accumulator
entry, to the initial value plus the sum of the per-step increments. This is
what makes the `+=` accumulation order-independent true summation. -/
lemma foldl_boxes_sum {C : Type} (step : (ℕ → ℕ → ℚ) → C → (ℕ → ℕ → ℚ))
    (dlt : C → ℕ → ℕ → ℚ)
    (hstep : ∀ g c b2 k2, step g c b2 k2 = g b2 k2 + dlt c b2 k2) :
    ∀ (L : List C) (g0 : ℕ → ℕ → ℚ) (b2 k2 : ℕ),
      L.foldl step g0 b2 k2 = g0 b2 k2 + (L.map fun c => dlt c b2 k2).sum := by
  intro L
  induction L with
  | nil => intro g0 b2 k2; simp
  | cons c t ih =>
    intro g0 b2 k2
    simp only [List.foldl_cons, List.map_cons, List.sum_cons]
    rw [ih, hstep]
    ring

/-- The 2D box-gradient loop body is pointwise additive with increment
`boxGradCellDelta`. -/
lemma backpropBoxesCell_eval (grads : ℕ → ℕ → ℕ → ℕ → ℚ) (image : ℤ → ℤ → ℤ → ℕ → ℚ)
    (boxes : ℕ → Box2) (boxIndex : ℕ → ℤ)
    (batchSize imageHeight imageWidth cropHeight cropWidth : ℕ)
    (g : ℕ → ℕ → ℚ) (b y x d b2 k2 : ℕ) :
    backpropBoxesCell grads image boxes boxIndex batchSize imageHeight imageWidth
        cropHeight cropWidth g b y x d b2 k2
      = g b2 k2 + boxGradCellDelta grads image boxes boxIndex batchSize imageHeight
          imageWidth cropHeight cropWidth (b, y, x, d) b2 k2 := by
  simp only [backpropBoxesCell, boxGradCellDelta]
  by_cases hv : fastBoundsCheck (boxIndex b) batchSize
  · by_cases hoy : outOfBounds
        (inCoordBoxes (boxes b).y1 (boxes b).y2 imageHeight cropHeight y) imageHeight
    · simp [hv, hoy]
    · by_cases hox : outOfBounds
          (inCoordBoxes (boxes b).x1 (boxes b).x2 imageWidth cropWidth x) imageWidth
      · simp [hv, hoy, hox]
      · by_cases hb2 : b2 = b
        · subst hb2
          have h4 : k2 = 0 ∨ k2 = 1 ∨ k2 = 2 ∨ k2 = 3
              ∨ (k2 ≠ 0 ∧ k2 ≠ 1 ∧ k2 ≠ 2 ∧ k2 ≠ 3) := by omega
          rcases h4 with h | h | h | h | ⟨h0, h1, h2, h3⟩ <;>
            first
            | (subst h; simp [hv, hoy, hox, addAtBoxes_eval])
            | simp [hv, hoy, hox, addAtBoxes_eval, h0, h1, h2, h3]
        · simp [hv, hoy, hox, hb2, addAtBoxes_eval]
  · simp [hv]

/-- The amount the 3D box-gradient loop body for cell `c = (b, y, x, z, d)`
adds to accumulator entry `(b2, k2)`: zero unless `b2 = b`, the box index is
valid and the cell is in-bounds; otherwise the per-axis derivative times the
endpoint weight — for `crop > 1` the weights `(ext-1 - i*ratio)` on the
first endpoint and `(i*ratio)` on the second, for `crop = 1` the weight
`0.5*(ext-1)` on both. -/
def boxGrad3DCellDelta (grads : ℕ → ℕ → ℕ → ℕ → ℕ → ℚ)
    (image : ℤ → ℤ → ℤ → ℤ → ℕ → ℚ) (boxes : ℕ → Box3) (boxIndex : ℕ → ℤ)
    (batchSize imageHeight imageWidth imageDepth cropHeight cropWidth cropDepth : ℕ)
    (c : ℕ × ℕ × ℕ × ℕ × ℕ) (b2 k2 : ℕ) : ℚ :=
  let b := c.1
  let y := c.2.1
  let x := c.2.2.1
  let z := c.2.2.2.1
  let d := c.2.2.2.2
  if fastBoundsCheck (boxIndex b) batchSize
      ∧ ¬ outOfBounds (inCoordBoxes (boxes b).y1 (boxes b).y2 imageHeight cropHeight y)
          imageHeight
      ∧ ¬ outOfBounds (inCoordBoxes (boxes b).x1 (boxes b).x2 imageWidth cropWidth x)
          imageWidth
      ∧ ¬ outOfBounds (inCoordBoxes (boxes b).z1 (boxes b).z2 imageDepth cropDepth z)
          imageDepth
      ∧ b2 = b then
    let inY := inCoordBoxes (boxes b).y1 (boxes b).y2 imageHeight cropHeight y
    let inX := inCoordBoxes (boxes b).x1 (boxes b).x2 imageWidth cropWidth x
    let inZ := inCoordBoxes (boxes b).z1 (boxes b).z2 imageDepth cropDepth z
    let topY := Int.floor inY
    let bottomY := Int.ceil inY
    let yLerp := inY - (topY : ℚ)
    let leftX := Int.floor inX
    let rightX := Int.ceil inX
    let xLerp := inX - (leftX : ℚ)
    let frontZ := Int.floor inZ
    let backZ := Int.ceil inZ
    let zLerp := inZ - (frontZ : ℚ)
    let topLeftFront := image (boxIndex b) topY leftX frontZ d
    let topRightFront := image (boxIndex b) topY rightX frontZ d
    let bottomLeftFront := image (boxIndex b) bottomY leftX frontZ d
    let bottomRightFront := image (boxIndex b) bottomY rightX frontZ d
    let topLeftBack := image (boxIndex b) topY leftX backZ d
    let topRightBack := image (boxIndex b) topY rightX backZ d
    let bottomLeftBack := image (boxIndex b) bottomY leftX backZ d
    let bottomRightBack := image (boxIndex b) bottomY rightX backZ d
    let imageGradY := ((1 - zLerp) * ((1 - xLerp) * (bottomLeftFront - topLeftFront)
          + xLerp * (bottomRightFront - topRightFront))
        + zLerp * ((1 - xLerp) * (bottomLeftBack - topLeftBack)
          + xLerp * (bottomRightBack - topRightBack))) * grads b y x z d
    let imageGradX := ((1 - zLerp) * ((1 - yLerp) * (topRightFront - topLeftFront)
          + yLerp * (bottomRightFront - bottomLeftFront))
        + zLerp * ((1 - yLerp) * (topRightBack - topLeftBack)
          + yLerp * (bottomRightBack - bottomLeftBack))) * grads b y x z d
    let imageGradZ := ((1 - yLerp) * ((1 - xLerp) * (topLeftBack - topLeftFront)
          + xLerp * (topRightBack - topRightFront))
        + yLerp * ((1 - xLerp) * (bottomLeftBack - bottomLeftFront)
          + xLerp * (bottomRightBack - bottomRightFront))) * grads b y x z d
    if k2 = 0 then
      if 1 < cropHeight then
        imageGradY * ((imageHeight : ℚ) - 1 - (y : ℚ) * ratioOf imageHeight cropHeight)
      else imageGradY * (1/2) * ((imageHeight : ℚ) - 1)
    else if k2 = 3 then
      if 1 < cropHeight then
        imageGradY * ((y : ℚ) * ratioOf imageHeight cropHeight)
      else imageGradY * (1/2) * ((imageHeight : ℚ) - 1)
    else if k2 = 1 then
      if 1 < cropWidth then
        imageGradX * ((imageWidth : ℚ) - 1 - (x : ℚ) * ratioOf imageWidth cropWidth)
      else imageGradX * (1/2) * ((imageWidth : ℚ) - 1)
    else if k2 = 4 then
      if 1 < cropWidth then
        imageGradX * ((x : ℚ) * ratioOf imageWidth cropWidth)
      else imageGradX * (1/2) * ((imageWidth : ℚ) - 1)
    else if k2 = 2 then
      if 1 < cropDepth then
        imageGradZ * ((imageDepth : ℚ) - 1 - (z : ℚ) * ratioOf imageDepth cropDepth)
      else imageGradZ * (1/2) * ((imageDepth : ℚ) - 1)
    else if k2 = 5 then
      if 1 < cropDepth then
        imageGradZ * ((z : ℚ) * ratioOf imageDepth cropDepth)
      else imageGradZ * (1/2) * ((imageDepth : ℚ) - 1)
    else 0
  else 0

/-- The 3D box-gradient loop body is pointwise additive with increment
`boxGrad3DCellDelta`. -/
lemma backpropBoxes3DCell_eval (grads : ℕ → ℕ → ℕ → ℕ → ℕ → ℚ)
    (image : ℤ → ℤ → ℤ → ℤ → ℕ → ℚ) (boxes : ℕ → Box3) (boxIndex : ℕ → ℤ)
    (batchSize imageHeight imageWidth imageDepth cropHeight cropWidth cropDepth : ℕ)
    (g : ℕ → ℕ → ℚ) (b y x z d b2 k2 : ℕ) :
    backpropBoxes3DCell grads image boxes boxIndex batchSize imageHeight imageWidth
        imageDepth cropHeight cropWidth cropDepth g b y x z d b2 k2
      = g b2 k2 + boxGrad3DCellDelta grads image boxes boxIndex batchSize imageHeight
          imageWidth imageDepth cropHeight cropWidth cropDepth (b, y, x, z, d) b2 k2 := by
  simp only [backpropBoxes3DCell, boxGrad3DCellDelta]
  by_cases hv : fastBoundsCheck (boxIndex b) batchSize
  · by_cases hoy : outOfBounds
        (inCoordBoxes (boxes b).y1 (boxes b).y2 imageHeight cropHeight y) imageHeight
    · simp [hv, hoy]
    · by_cases hox : outOfBounds
          (inCoordBoxes (boxes b).x1 (boxes b).x2 imageWidth cropWidth x) imageWidth
      · simp [hv, hoy, hox]
      · by_cases hoz : outOfBounds
            (inCoordBoxes (boxes b).z1 (boxes b).z2 imageDepth cropDepth z) imageDepth
        · simp [hv, hoy, hox, hoz]
        · by_cases hb2 : b2 = b
          · subst hb2
            have h6 : k2 = 0 ∨ k2 = 1 ∨ k2 = 2 ∨ k2 = 3 ∨ k2 = 4 ∨ k2 = 5
                ∨ (k2 ≠ 0 ∧ k2 ≠ 1 ∧ k2 ≠ 2 ∧ k2 ≠ 3 ∧ k2 ≠ 4 ∧ k2 ≠ 5) := by omega
            rcases h6 with h | h | h | h | h | h | ⟨h0, h1, h2, h3, h4, h5⟩ <;>
              first
              | (subst h; simp [hv, hoy, hox, hoz, addAtBoxes_eval])
              | simp [hv, hoy, hox, hoz, addAtBoxes_eval, h0, h1, h2, h3, h4, h5]
          · simp [hv, hoy, hox, hoz, hb2, addAtBoxes_eval]
  · simp [hv]

/-- C5: in both box-gradient kernels, every accumulator entry of the per-box
gradient vector equals the true sum, over all output cells, of the per-axis
derivative converted to endpoint gradients with weights
`(ext-1 - i*ratio)` / `(i*ratio)` when `crop > 1` and `0.5*(ext-1)` on both
endpoints when `crop = 1` (see `boxGradCellDelta` / `boxGrad3DCellDelta`);
the `+=` accumulation is order-independent summation starting from zero,
never an overwrite. -/
theorem backpropBoxes_endpoint_weights :
    (∀ (grads : ℕ → ℕ → ℕ → ℕ → ℚ) (image : ℤ → ℤ → ℤ → ℕ → ℚ)
        (boxes : ℕ → Box2) (boxIndex : ℕ → ℤ)
        (batchSize imageHeight imageWidth numBoxes cropHeight cropWidth depth b2 k2 : ℕ),
      cropAndResizeBackpropBoxes grads image boxes boxIndex batchSize imageHeight
          imageWidth numBoxes cropHeight cropWidth depth b2 k2
        = ((cellList4 numBoxes cropHeight cropWidth depth).map fun c =>
            boxGradCellDelta grads image boxes boxIndex batchSize imageHeight
              imageWidth cropHeight cropWidth c b2 k2).sum) ∧
    (∀ (grads : ℕ → ℕ → ℕ → ℕ → ℕ → ℚ) (image : ℤ → ℤ → ℤ → ℤ → ℕ → ℚ)
        (boxes : ℕ → Box3) (boxIndex : ℕ → ℤ)
        (batchSize imageHeight imageWidth imageDepth : ℕ)
        (numBoxes cropHeight cropWidth cropDepth depth b2 k2 : ℕ),
      cropAndResizeBackpropBoxes3D grads image boxes boxIndex batchSize imageHeight
          imageWidth imageDepth numBoxes cropHeight cropWidth cropDepth depth b2 k2
        = ((cellList5 numBoxes cropHeight cropWidth cropDepth depth).map fun c =>
            boxGrad3DCellDelta grads image boxes boxIndex batchSize imageHeight
              imageWidth imageDepth cropHeight cropWidth cropDepth c b2 k2).sum) := by
  constructor
  · intro grads image boxes boxIndex batchSize imageHeight imageWidth numBoxes
      cropHeight cropWidth depth b2 k2
    have h := foldl_boxes_sum
      (fun g c =>
        backpropBoxesCell grads image boxes boxIndex batchSize imageHeight imageWidth
          cropHeight cropWidth g c.1 c.2.1 c.2.2.1 c.2.2.2)
      (fun c =>
        boxGradCellDelta grads image boxes boxIndex batchSize imageHeight imageWidth
          cropHeight cropWidth c)
      (fun g c b2 k2 =>
        backpropBoxesCell_eval grads image boxes boxIndex batchSize imageHeight
          imageWidth cropHeight cropWidth g c.1 c.2.1 c.2.2.1 c.2.2.2 b2 k2)
      (cellList4 numBoxes cropHeight cropWidth depth) (fun _ _ => 0) b2 k2
    simpa [cropAndResizeBackpropBoxes] using h
  · intro grads image boxes boxIndex batchSize imageHeight imageWidth imageDepth
      numBoxes cropHeight cropWidth cropDepth depth b2 k2
    have h := foldl_boxes_sum
      (fun g c =>
        backpropBoxes3DCell grads image boxes boxIndex batchSize imageHeight imageWidth
          imageDepth cropHeight cropWidth cropDepth g c.1 c.2.1 c.2.2.1 c.2.2.2.1
          c.2.2.2.2)
      (fun c =>
        boxGrad3DCellDelta grads image boxes boxIndex batchSize imageHeight imageWidth
          imageDepth cropHeight cropWidth cropDepth c)
      (fun g c b2 k2 =>
        backpropBoxes3DCell_eval grads image boxes boxIndex batchSize imageHeight
          imageWidth imageDepth cropHeight cropWidth cropDepth g c.1 c.2.1 c.2.2.1
          c.2.2.2.1 c.2.2.2.2 b2 k2)
      (cellList5 numBoxes cropHeight cropWidth cropDepth depth) (fun _ _ => 0) b2 k2
    simpa [cropAndResizeBackpropBoxes3D] using h

/-- C4: an output cell whose mapped coordinate is out of bounds on at least
one axis is written with the extrapolation value on every channel by the
forward kernels (2D and 3D), and is skipped — its loop body leaves the
accumulator untouched — by the image-gradient and box-gradient kernels
(2D and 3D). -/
theorem out_of_bounds_cells :
    (∀ (image : ℤ → ℤ → ℤ → ℕ → ℚ) (boxes : ℕ → Box2) (boxIndex : ℕ → ℤ)
        (batchSize imageHeight imageWidth numBoxes cropHeight cropWidth depth : ℕ)
        (extrapolationValue : ℚ) (crops0 : ℕ → ℕ → ℕ → ℕ → ℚ) (b y x d : ℕ),
      (b < numBoxes ∧ y < cropHeight ∧ x < cropWidth ∧ d < depth) →
      fastBoundsCheck (boxIndex b) batchSize →
      (outOfBounds (inCoordFwd (boxes b).y1 (boxes b).y2 imageHeight cropHeight y)
          imageHeight ∨
        outOfBounds (inCoordFwd (boxes b).x1 (boxes b).x2 imageWidth cropWidth x)
          imageWidth) →
      cropAndResize image boxes boxIndex batchSize imageHeight imageWidth numBoxes
          cropHeight cropWidth depth extrapolationValue crops0 b y x d
        = extrapolationValue) ∧
    (∀ (image : ℤ → ℤ → ℤ → ℤ → ℕ → ℚ) (boxes : ℕ → Box3) (boxIndex : ℕ → ℤ)
        (batchSize imageHeight imageWidth imageDepth : ℕ)
        (numBoxes cropHeight cropWidth cropDepth depth : ℕ)
        (extrapolationValue : ℚ) (crops0 : ℕ → ℕ → ℕ → ℕ → ℕ → ℚ) (b y x z d : ℕ),
      (b < numBoxes ∧ y < cropHeight ∧ x < cropWidth ∧ z < cropDepth ∧ d < depth) →
      fastBoundsCheck (boxIndex b) batchSize →
      (outOfBounds (inCoordFwd (boxes b).y1 (boxes b).y2 imageHeight cropHeight y)
          imageHeight ∨
        outOfBounds (inCoordFwd (boxes b).x1 (boxes b).x2 imageWidth cropWidth x)
          imageWidth ∨
        outOfBounds (inCoordFwd (boxes b).z1 (boxes b).z2 imageDepth cropDepth z)
          imageDepth) →
      cropAndResize3D image boxes boxIndex batchSize imageHeight imageWidth imageDepth
          numBoxes cropHeight cropWidth cropDepth depth extrapolationValue crops0
          b y x z d
        = extrapolationValue) ∧
    (∀ (grads : ℕ → ℕ → ℕ → ℕ → ℚ) (boxes : ℕ → Box2) (boxIndex : ℕ → ℤ)
        (batchSize imageHeight imageWidth cropHeight cropWidth : ℕ)
        (g : ℤ → ℤ → ℤ → ℕ → ℚ) (b y x d : ℕ),
      (outOfBounds (inCoordFwd (boxes b).y1 (boxes b).y2 imageHeight cropHeight y)
          imageHeight ∨
        outOfBounds (inCoordFwd (boxes b).x1 (boxes b).x2 imageWidth cropWidth x)
          imageWidth) →
      backpropImageCell grads boxes boxIndex batchSize imageHeight imageWidth
          cropHeight cropWidth g b y x d = g) ∧
    (∀ (grads : ℕ → ℕ → ℕ → ℕ → ℕ → ℚ) (boxes : ℕ → Box3) (boxIndex : ℕ → ℤ)
        (batchSize imageHeight imageWidth imageDepth cropHeight cropWidth cropDepth : ℕ)
        (g : ℤ → ℤ → ℤ → ℤ → ℕ → ℚ) (b y x z d : ℕ),
      (outOfBounds (inCoordFwd (boxes b).y1 (boxes b).y2 imageHeight cropHeight y)
          imageHeight ∨
        outOfBounds (inCoordFwd (boxes b).x1 (boxes b).x2 imageWidth cropWidth x)
          imageWidth ∨
        outOfBounds (inCoordFwd (boxes b).z1 (boxes b).z2 imageDepth cropDepth z)
          imageDepth) →
      backpropImage3DCell grads boxes boxIndex batchSize imageHeight imageWidth
          imageDepth cropHeight cropWidth cropDepth g b y x z d = g) ∧
    (∀ (grads : ℕ → ℕ → ℕ → ℕ → ℚ) (image : ℤ → ℤ → ℤ → ℕ → ℚ)
        (boxes : ℕ → Box2) (boxIndex : ℕ → ℤ)
        (batchSize imageHeight imageWidth cropHeight cropWidth : ℕ)
        (g : ℕ → ℕ → ℚ) (b y x d : ℕ),
      (outOfBounds (inCoordBoxes (boxes b).y1 (boxes b).y2 imageHeight cropHeight y)
          imageHeight ∨
        outOfBounds (inCoordBoxes (boxes b).x1 (boxes b).x2 imageWidth cropWidth x)
          imageWidth) →
      backpropBoxesCell grads image boxes boxIndex batchSize imageHeight imageWidth
          cropHeight cropWidth g b y x d = g) ∧
    (∀ (grads : ℕ → ℕ → ℕ → ℕ → ℕ → ℚ) (image : ℤ → ℤ → ℤ → ℤ → ℕ → ℚ)
        (boxes : ℕ → Box3) (boxIndex : ℕ → ℤ)
        (batchSize imageHeight imageWidth imageDepth cropHeight cropWidth cropDepth : ℕ)
        (g : ℕ → ℕ → ℚ) (b y x z d : ℕ),
      (outOfBounds (inCoordBoxes (boxes b).y1 (boxes b).y2 imageHeight cropHeight y)
          imageHeight ∨
        outOfBounds (inCoordBoxes (boxes b).x1 (boxes b).x2 imageWidth cropWidth x)
          imageWidth ∨
        outOfBounds (inCoordBoxes (boxes b).z1 (boxes b).z2 imageDepth cropDepth z)
          imageDepth) →
      backpropBoxes3DCell grads image boxes boxIndex batchSize imageHeight imageWidth
          imageDepth cropHeight cropWidth cropDepth g b y x z d = g) := by
  refine ⟨?_, ?_, ?_, ?_, ?_, ?_⟩
  · intro image boxes boxIndex batchSize imageHeight imageWidth numBoxes cropHeight
      cropWidth depth extrapolationValue crops0 b y x d hcell hvalid hoob
    simp only [cropAndResize, if_pos hcell, if_pos hvalid]
    rcases hoob with h | h
    · simp [h]
    · by_cases hoy : outOfBounds
          (inCoordFwd (boxes b).y1 (boxes b).y2 imageHeight cropHeight y) imageHeight
      · simp [hoy]
      · simp [hoy, h]
  · intro image boxes boxIndex batchSize imageHeight imageWidth imageDepth numBoxes
      cropHeight cropWidth cropDepth depth extrapolationValue crops0 b y x z d
      hcell hvalid hoob
    simp only [cropAndResize3D, if_pos hcell, if_pos hvalid]
    by_cases hoy : outOfBounds
        (inCoordFwd (boxes b).y1 (boxes b).y2 imageHeight cropHeight y) imageHeight
    · simp [hoy]
    · by_cases hox : outOfBounds
          (inCoordFwd (boxes b).x1 (boxes b).x2 imageWidth cropWidth x) imageWidth
      · simp [hoy, hox]
      · rcases hoob with h | h | h
        · exact absurd h hoy
        · exact absurd h hox
        · simp [hoy, hox, h]
  · intro grads boxes boxIndex batchSize imageHeight imageWidth cropHeight cropWidth
      g b y x d hoob
    by_cases hv : fastBoundsCheck (boxIndex b) batchSize
    · rcases hoob with h | h
      · simp [backpropImageCell, hv, h]
      · by_cases hoy : outOfBounds
            (inCoordFwd (boxes b).y1 (boxes b).y2 imageHeight cropHeight y) imageHeight
        · simp [backpropImageCell, hv, hoy]
        · simp [backpropImageCell, hv, hoy, h]
    · simp [backpropImageCell, hv]
  · intro grads boxes boxIndex batchSize imageHeight imageWidth imageDepth cropHeight
      cropWidth cropDepth g b y x z d hoob
    by_cases hv : fastBoundsCheck (boxIndex b) batchSize
    · by_cases hoy : outOfBounds
          (inCoordFwd (boxes b).y1 (boxes b).y2 imageHeight cropHeight y) imageHeight
      · simp [backpropImage3DCell, hv, hoy]
      · by_cases hox : outOfBounds
            (inCoordFwd (boxes b).x1 (boxes b).x2 imageWidth cropWidth x) imageWidth
        · simp [backpropImage3DCell, hv, hoy, hox]
        · rcases hoob with h | h | h
          · exact absurd h hoy
          · exact absurd h hox
          · simp [backpropImage3DCell, hv, hoy, hox, h]
    · simp [backpropImage3DCell, hv]
  · intro grads image boxes boxIndex batchSize imageHeight imageWidth cropHeight
      cropWidth g b y x d hoob
    by_cases hv : fastBoundsCheck (boxIndex b) batchSize
    · rcases hoob with h | h
      · simp [backpropBoxesCell, hv, h]
      · by_cases hoy : outOfBounds
            (inCoordBoxes (boxes b).y1 (boxes b).y2 imageHeight cropHeight y) imageHeight
        · simp [backpropBoxesCell, hv, hoy]
        · simp [backpropBoxesCell, hv, hoy, h]
    · simp [backpropBoxesCell, hv]
  · intro grads image boxes boxIndex batchSize imageHeight imageWidth imageDepth
      cropHeight cropWidth cropDepth g b y x z d hoob
    by_cases hv : fastBoundsCheck (boxIndex b) batchSize
    · by_cases hoy : outOfBounds
          (inCoordBoxes (boxes b).y1 (boxes b).y2 imageHeight cropHeight y) imageHeight
      · simp [backpropBoxes3DCell, hv, hoy]
      · by_cases hox : outOfBounds
            (inCoordBoxes (boxes b).x1 (boxes b).x2 imageWidth cropWidth x) imageWidth
        · simp [backpropBoxes3DCell, hv, hoy, hox]
        · rcases hoob with h | h | h
          · exact absurd h hoy
          · exact absurd h hox
          · simp [backpropBoxes3DCell, hv, hoy, hox, h]
    · simp [backpropBoxes3DCell, hv]

/-- A concrete out-of-bounds fact: the degenerate box endpoints `(2, 2)` on a
height-2 image with `crop_height = 1` map grid index 0 to `in_y = 2`, which
exceeds `ext - 1 = 1`. -/
lemma oob_fact_box22 : outOfBounds (inCoordFwd 2 2 2 1 0) 2 :=
  Or.inr (by norm_num [inCoordFwd])

/-- Witness for `out_of_bounds_cells`: with box `(2, 0, 2, 1)` on a `2 × 2`
image, crop size `1 × 1` and extrapolation value `7`, the single output cell
maps to `in_y = 2 > 1` and is filled with `7`. -/
theorem out_of_bounds_cells_witness :
    cropAndResize img22 (fun _ => ⟨2, 0, 2, 1⟩) boxIndexZero 1 2 2 1 1 1 1 7 zeros4
        0 0 0 0 = 7 :=
  out_of_bounds_cells.1 img22 (fun _ => ⟨2, 0, 2, 1⟩) boxIndexZero 1 2 2 1 1 1 1 7
    zeros4 0 0 0 0 (by decide) (by decide) (Or.inl oob_fact_box22)

/-- C6: a box whose image index fails `FastBoundsCheck` is silently skipped by
every kernel: the forward kernels leave every output cell of that box at its
prior buffer content, and the gradient loop bodies leave the accumulators
untouched; no error value exists anywhere in the kernels' types. -/
theorem invalid_box_index_skipped :
    (∀ (image : ℤ → ℤ → ℤ → ℕ → ℚ) (boxes : ℕ → Box2) (boxIndex : ℕ → ℤ)
        (batchSize imageHeight imageWidth numBoxes cropHeight cropWidth depth : ℕ)
        (extrapolationValue : ℚ) (crops0 : ℕ → ℕ → ℕ → ℕ → ℚ) (b y x d : ℕ),
      ¬ fastBoundsCheck (boxIndex b) batchSize →
      cropAndResize image boxes boxIndex batchSize imageHeight imageWidth numBoxes
          cropHeight cropWidth depth extrapolationValue crops0 b y x d
        = crops0 b y x d) ∧
    (∀ (image : ℤ → ℤ → ℤ → ℤ → ℕ → ℚ) (boxes : ℕ → Box3) (boxIndex : ℕ → ℤ)
        (batchSize imageHeight imageWidth imageDepth : ℕ)
        (numBoxes cropHeight cropWidth cropDepth depth : ℕ)
        (extrapolationValue : ℚ) (crops0 : ℕ → ℕ → ℕ → ℕ → ℕ → ℚ) (b y x z d : ℕ),
      ¬ fastBoundsCheck (boxIndex b) batchSize →
      cropAndResize3D image boxes boxIndex batchSize imageHeight imageWidth imageDepth
          numBoxes cropHeight cropWidth cropDepth depth extrapolationValue crops0
          b y x z d
        = crops0 b y x z d) ∧
    (∀ (grads : ℕ → ℕ → ℕ → ℕ → ℚ) (boxes : ℕ → Box2) (boxIndex : ℕ → ℤ)
        (batchSize imageHeight imageWidth cropHeight cropWidth : ℕ)
        (g : ℤ → ℤ → ℤ → ℕ → ℚ) (b y x d : ℕ),
      ¬ fastBoundsCheck (boxIndex b) batchSize →
      backpropImageCell grads boxes boxIndex batchSize imageHeight imageWidth
          cropHeight cropWidth g b y x d = g) ∧
    (∀ (grads : ℕ → ℕ → ℕ → ℕ → ℕ → ℚ) (boxes : ℕ → Box3) (boxIndex : ℕ → ℤ)
        (batchSize imageHeight imageWidth imageDepth cropHeight cropWidth cropDepth : ℕ)
        (g : ℤ → ℤ → ℤ → ℤ → ℕ → ℚ) (b y x z d : ℕ),
      ¬ fastBoundsCheck (boxIndex b) batchSize →
      backpropImage3DCell grads boxes boxIndex batchSize imageHeight imageWidth
          imageDepth cropHeight cropWidth cropDepth g b y x z d = g) ∧
    (∀ (grads : ℕ → ℕ → ℕ → ℕ → ℚ) (image : ℤ → ℤ → ℤ → ℕ → ℚ)
        (boxes : ℕ → Box2) (boxIndex : ℕ → ℤ)
        (batchSize imageHeight imageWidth cropHeight cropWidth : ℕ)
        (g : ℕ → ℕ → ℚ) (b y x d : ℕ),
      ¬ fastBoundsCheck (boxIndex b) batchSize →
      backpropBoxesCell grads image boxes boxIndex batchSize imageHeight imageWidth
          cropHeight cropWidth g b y x d = g) ∧
    (∀ (grads : ℕ → ℕ → ℕ → ℕ → ℕ → ℚ) (image : ℤ → ℤ → ℤ → ℤ → ℕ → ℚ)
        (boxes : ℕ → Box3) (boxIndex : ℕ → ℤ)
        (batchSize imageHeight imageWidth imageDepth cropHeight cropWidth cropDepth : ℕ)
        (g : ℕ → ℕ → ℚ) (b y x z d : ℕ),
      ¬ fastBoundsCheck (boxIndex b) batchSize →
      backpropBoxes3DCell grads image boxes boxIndex batchSize imageHeight imageWidth
          imageDepth cropHeight cropWidth cropDepth g b y x z d = g) := by
  refine ⟨?_, ?_, ?_, ?_, ?_, ?_⟩
  · intro image boxes boxIndex batchSize imageHeight imageWidth numBoxes cropHeight
      cropWidth depth extrapolationValue crops0 b y x d hv
    simp [cropAndResize, hv]
  · intro image boxes boxIndex batchSize imageHeight imageWidth imageDepth numBoxes
      cropHeight cropWidth cropDepth depth extrapolationValue crops0 b y x z d hv
    simp [cropAndResize3D, hv]
  · intro grads boxes boxIndex batchSize imageHeight imageWidth cropHeight cropWidth
      g b y x d hv
    simp [backpropImageCell, hv]
  · intro grads boxes boxIndex batchSize imageHeight imageWidth imageDepth cropHeight
      cropWidth cropDepth g b y x z d hv
    simp [backpropImage3DCell, hv]
  · intro grads image boxes boxIndex batchSize imageHeight imageWidth cropHeight
      cropWidth g b y x d hv
    simp [backpropBoxesCell, hv]
  · intro grads image boxes boxIndex batchSize imageHeight imageWidth imageDepth
      cropHeight cropWidth cropDepth g b y x z d hv
    simp [backpropBoxes3DCell, hv]

/-- Witness for `invalid_box_index_skipped`: box index `5` with batch size `1`
is invalid, so the forward kernel leaves the (zero) output buffer alone. -/
theorem invalid_box_index_skipped_witness :
    cropAndResize img22 boxFull2 (fun _ => 5) 1 2 2 1 2 2 1 7 zeros4 0 0 0 0 = 0 :=
  invalid_box_index_skipped.1 img22 boxFull2 (fun _ => 5) 1 2 2 1 2 2 1 7 zeros4
    0 0 0 0 (by decide)

/-- The memory a 2D kernel call can touch: the source image batch (declared
`ConstTensor` in the source) and the three output buffers. -/
structure Memory2D where
  image : ℤ → ℤ → ℤ → ℕ → ℚ
  crops : ℕ → ℕ → ℕ → ℕ → ℚ
  gradsImage : ℤ → ℤ → ℤ → ℕ → ℚ
  gradsBoxes : ℕ → ℕ → ℚ

/-- The memory a 3D kernel call can touch. -/
structure Memory3D where
  image : ℤ → ℤ → ℤ → ℤ → ℕ → ℚ
  crops : ℕ → ℕ → ℕ → ℕ → ℕ → ℚ
  gradsImage : ℤ → ℤ → ℤ → ℤ → ℕ → ℚ
  gradsBoxes : ℕ → ℕ → ℚ

/-- Running the forward 2D kernel on a memory state: only `crops` is written. -/
def runCropAndResize (boxes : ℕ → Box2) (boxIndex : ℕ → ℤ)
    (batchSize imageHeight imageWidth numBoxes cropHeight cropWidth depth : ℕ)
    (extrapolationValue : ℚ) (m : Memory2D) : Memory2D :=
  { m with
    crops := cropAndResize m.image boxes boxIndex batchSize imageHeight imageWidth
      numBoxes cropHeight cropWidth depth extrapolationValue m.crops }

/-- Running the forward 3D kernel on a memory state: only `crops` is written. -/
def runCropAndResize3D (boxes : ℕ → Box3) (boxIndex : ℕ → ℤ)
    (batchSize imageHeight imageWidth imageDepth : ℕ)
    (numBoxes cropHeight cropWidth cropDepth depth : ℕ)
    (extrapolationValue : ℚ) (m : Memory3D) : Memory3D :=
  { m with
    crops := cropAndResize3D m.image boxes boxIndex batchSize imageHeight imageWidth
      imageDepth numBoxes cropHeight cropWidth cropDepth depth extrapolationValue
      m.crops }

/-- Running the 2D image-gradient kernel: only `gradsImage` is written. -/
def runBackpropImage (grads : ℕ → ℕ → ℕ → ℕ → ℚ) (boxes : ℕ → Box2) (boxIndex : ℕ → ℤ)
    (batchSize imageHeight imageWidth numBoxes cropHeight cropWidth depth : ℕ)
    (m : Memory2D) : Memory2D :=
  { m with
    gradsImage := cropAndResizeBackpropImage grads boxes boxIndex batchSize imageHeight
      imageWidth numBoxes cropHeight cropWidth depth }

/-- Running the 3D image-gradient kernel: only `gradsImage` is written. -/
def runBackpropImage3D (grads : ℕ → ℕ → ℕ → ℕ → ℕ → ℚ) (boxes : ℕ → Box3)
    (boxIndex : ℕ → ℤ) (batchSize imageHeight imageWidth imageDepth : ℕ)
    (numBoxes cropHeight cropWidth cropDepth depth : ℕ) (m : Memory3D) : Memory3D :=
  { m with
    gradsImage := cropAndResizeBackpropImage3D grads boxes boxIndex batchSize
      imageHeight imageWidth imageDepth numBoxes cropHeight cropWidth cropDepth depth }

/-- Running the 2D box-gradient kernel, which reads the image from memory:
only `gradsBoxes` is written. -/
def runBackpropBoxes (grads : ℕ → ℕ → ℕ → ℕ → ℚ) (boxes : ℕ → Box2) (boxIndex : ℕ → ℤ)
    (batchSize imageHeight imageWidth numBoxes cropHeight cropWidth depth : ℕ)
    (m : Memory2D) : Memory2D :=
  { m with
    gradsBoxes := cropAndResizeBackpropBoxes grads m.image boxes boxIndex batchSize
      imageHeight imageWidth numBoxes cropHeight cropWidth depth }

/-- Running the 3D box-gradient kernel, which reads the image from memory:
only `gradsBoxes` is written. -/
def runBackpropBoxes3D (grads : ℕ → ℕ → ℕ → ℕ → ℕ → ℚ) (boxes : ℕ → Box3)
    (boxIndex : ℕ → ℤ) (batchSize imageHeight imageWidth imageDepth : ℕ)
    (numBoxes cropHeight cropWidth cropDepth depth : ℕ) (m : Memory3D) : Memory3D :=
  { m with
    gradsBoxes := cropAndResizeBackpropBoxes3D grads m.image boxes boxIndex batchSize
      imageHeight imageWidth imageDepth numBoxes cropHeight cropWidth cropDepth depth }

/-- C8: no core kernel modifies the source image batch — after any of the six
kernels runs on a memory state, every element of the image array equals its
value before the call. -/
theorem image_never_mutated :
    (∀ (boxes : ℕ → Box2) (boxIndex : ℕ → ℤ)
        (batchSize imageHeight imageWidth numBoxes cropHeight cropWidth depth : ℕ)
        (extrapolationValue : ℚ) (m : Memory2D) (bi yi xi : ℤ) (d : ℕ),
      (runCropAndResize boxes boxIndex batchSize imageHeight imageWidth numBoxes
          cropHeight cropWidth depth extrapolationValue m).image bi yi xi d
        = m.image bi yi xi d) ∧
    (∀ (boxes : ℕ → Box3) (boxIndex : ℕ → ℤ)
        (batchSize imageHeight imageWidth imageDepth : ℕ)
        (numBoxes cropHeight cropWidth cropDepth depth : ℕ)
        (extrapolationValue : ℚ) (m : Memory3D) (bi yi xi zi : ℤ) (d : ℕ),
      (runCropAndResize3D boxes boxIndex batchSize imageHeight imageWidth imageDepth
          numBoxes cropHeight cropWidth cropDepth depth extrapolationValue m).image
          bi yi xi zi d
        = m.image bi yi xi zi d) ∧
    (∀ (grads : ℕ → ℕ → ℕ → ℕ → ℚ) (boxes : ℕ → Box2) (boxIndex : ℕ → ℤ)
        (batchSize imageHeight imageWidth numBoxes cropHeight cropWidth depth : ℕ)
        (m : Memory2D) (bi yi xi : ℤ) (d : ℕ),
      (runBackpropImage grads boxes boxIndex batchSize imageHeight imageWidth numBoxes
          cropHeight cropWidth depth m).image bi yi xi d
        = m.image bi yi xi d) ∧
    (∀ (grads : ℕ → ℕ → ℕ → ℕ → ℕ → ℚ) (boxes : ℕ → Box3) (boxIndex : ℕ → ℤ)
        (batchSize imageHeight imageWidth imageDepth : ℕ)
        (numBoxes cropHeight cropWidth cropDepth depth : ℕ)
        (m : Memory3D) (bi yi xi zi : ℤ) (d : ℕ),
      (runBackpropImage3D grads boxes boxIndex batchSize imageHeight imageWidth
          imageDepth numBoxes cropHeight cropWidth cropDepth depth m).image
          bi yi xi zi d
        = m.image bi yi xi zi d) ∧
    (∀ (grads : ℕ → ℕ → ℕ → ℕ → ℚ) (boxes : ℕ → Box2) (boxIndex : ℕ → ℤ)
        (batchSize imageHeight imageWidth numBoxes cropHeight cropWidth depth : ℕ)
        (m : Memory2D) (bi yi xi : ℤ) (d : ℕ),
      (runBackpropBoxes grads boxes boxIndex batchSize imageHeight imageWidth numBoxes
          cropHeight cropWidth depth m).image bi yi xi d
        = m.image bi yi xi d) ∧
    (∀ (grads : ℕ → ℕ → ℕ → ℕ → ℕ → ℚ) (boxes : ℕ → Box3) (boxIndex : ℕ → ℤ)
        (batchSize imageHeight imageWidth imageDepth : ℕ)
        (numBoxes cropHeight cropWidth cropDepth depth : ℕ)
        (m : Memory3D) (bi yi xi zi : ℤ) (d : ℕ),
      (runBackpropBoxes3D grads boxes boxIndex batchSize imageHeight imageWidth
          imageDepth numBoxes cropHeight cropWidth cropDepth depth m).image
          bi yi xi zi d
        = m.image bi yi xi zi d) :=
  ⟨fun _ _ _ _ _ _ _ _ _ _ _ _ _ _ _ => rfl,
   fun _ _ _ _ _ _ _ _ _ _ _ _ _ _ _ _ _ _ => rfl,
   fun _ _ _ _ _ _ _ _ _ _ _ _ _ _ _ => rfl,
   fun _ _ _ _ _ _ _ _ _ _ _ _ _ _ _ _ _ _ => rfl,
   fun _ _ _ _ _ _ _ _ _ _ _ _ _ _ _ => rfl,
   fun _ _ _ _ _ _ _ _ _ _ _ _ _ _ _ _ _ _ => rfl⟩

/-- C9: each kernel is a pure, deterministic function of its inputs — two runs
on identical inputs produce identical outputs — and the forward kernel's
output for a cell of box `b` depends only on the image, box `b`'s own
coordinate row, box `b`'s own index, and that cell's prior buffer content:
no other state exists. -/
theorem kernels_deterministic :
    (∀ (image1 image2 : ℤ → ℤ → ℤ → ℕ → ℚ) (boxes1 boxes2 : ℕ → Box2)
        (boxIndex1 boxIndex2 : ℕ → ℤ)
        (batchSize imageHeight imageWidth numBoxes cropHeight cropWidth depth : ℕ)
        (extrap1 extrap2 : ℚ) (crops01 crops02 : ℕ → ℕ → ℕ → ℕ → ℚ),
      image1 = image2 → boxes1 = boxes2 → boxIndex1 = boxIndex2 → extrap1 = extrap2 →
      crops01 = crops02 →
      cropAndResize image1 boxes1 boxIndex1 batchSize imageHeight imageWidth numBoxes
          cropHeight cropWidth depth extrap1 crops01
        = cropAndResize image2 boxes2 boxIndex2 batchSize imageHeight imageWidth
            numBoxes cropHeight cropWidth depth extrap2 crops02) ∧
    (∀ (image1 image2 : ℤ → ℤ → ℤ → ℤ → ℕ → ℚ) (boxes1 boxes2 : ℕ → Box3)
        (boxIndex1 boxIndex2 : ℕ → ℤ)
        (batchSize imageHeight imageWidth imageDepth : ℕ)
        (numBoxes cropHeight cropWidth cropDepth depth : ℕ)
        (extrap1 extrap2 : ℚ) (crops01 crops02 : ℕ → ℕ → ℕ → ℕ → ℕ → ℚ),
      image1 = image2 → boxes1 = boxes2 → boxIndex1 = boxIndex2 → extrap1 = extrap2 →
      crops01 = crops02 →
      cropAndResize3D image1 boxes1 boxIndex1 batchSize imageHeight imageWidth
          imageDepth numBoxes cropHeight cropWidth cropDepth depth extrap1 crops01
        = cropAndResize3D image2 boxes2 boxIndex2 batchSize imageHeight imageWidth
            imageDepth numBoxes cropHeight cropWidth cropDepth depth extrap2 crops02) ∧
    (∀ (grads1 grads2 : ℕ → ℕ → ℕ → ℕ → ℚ) (boxes1 boxes2 : ℕ → Box2)
        (boxIndex1 boxIndex2 : ℕ → ℤ)
        (batchSize imageHeight imageWidth numBoxes cropHeight cropWidth depth : ℕ),
      grads1 = grads2 → boxes1 = boxes2 → boxIndex1 = boxIndex2 →
      cropAndResizeBackpropImage grads1 boxes1 boxIndex1 batchSize imageHeight
          imageWidth numBoxes cropHeight cropWidth depth
        = cropAndResizeBackpropImage grads2 boxes2 boxIndex2 batchSize imageHeight
            imageWidth numBoxes cropHeight cropWidth depth) ∧
    (∀ (grads1 grads2 : ℕ → ℕ → ℕ → ℕ → ℚ) (image1 image2 : ℤ → ℤ → ℤ → ℕ → ℚ)
        (boxes1 boxes2 : ℕ → Box2) (boxIndex1 boxIndex2 : ℕ → ℤ)
        (batchSize imageHeight imageWidth numBoxes cropHeight cropWidth depth : ℕ),
      grads1 = grads2 → image1 = image2 → boxes1 = boxes2 → boxIndex1 = boxIndex2 →
      cropAndResizeBackpropBoxes grads1 image1 boxes1 boxIndex1 batchSize imageHeight
          imageWidth numBoxes cropHeight cropWidth depth
        = cropAndResizeBackpropBoxes grads2 image2 boxes2 boxIndex2 batchSize
            imageHeight imageWidth numBoxes cropHeight cropWidth depth) ∧
    (∀ (image : ℤ → ℤ → ℤ → ℕ → ℚ) (boxes1 boxes2 : ℕ → Box2)
        (boxIndex1 boxIndex2 : ℕ → ℤ)
        (batchSize imageHeight imageWidth numBoxes cropHeight cropWidth depth : ℕ)
        (extrap : ℚ) (crops01 crops02 : ℕ → ℕ → ℕ → ℕ → ℚ) (b y x d : ℕ),
      boxes1 b = boxes2 b → boxIndex1 b = boxIndex2 b →
      crops01 b y x d = crops02 b y x d →
      cropAndResize image boxes1 boxIndex1 batchSize imageHeight imageWidth numBoxes
          cropHeight cropWidth depth extrap crops01 b y x d
        = cropAndResize image boxes2 boxIndex2 batchSize imageHeight imageWidth
            numBoxes cropHeight cropWidth depth extrap crops02 b y x d) := by
  refine ⟨?_, ?_, ?_, ?_, ?_⟩
  · rintro image1 _ boxes1 _ boxIndex1 _ _ _ _ _ _ _ _ _ _ _ _ rfl rfl rfl rfl rfl
    rfl
  · rintro image1 _ boxes1 _ boxIndex1 _ _ _ _ _ _ _ _ _ _ _ _ _ _ rfl rfl rfl rfl rfl
    rfl
  · rintro grads1 _ boxes1 _ boxIndex1 _ _ _ _ _ _ _ _ rfl rfl rfl
    rfl
  · rintro grads1 _ image1 _ boxes1 _ boxIndex1 _ _ _ _ _ _ _ _ rfl rfl rfl rfl
    rfl
  · intro image boxes1 boxes2 boxIndex1 boxIndex2 batchSize imageHeight imageWidth
      numBoxes cropHeight cropWidth depth extrap crops01 crops02 b y x d hbox hidx
      hcrops
    simp only [cropAndResize, hbox, hidx, hcrops]

/-- Witness for `kernels_deterministic`: two runs of the forward kernel on the
identity-scenario inputs coincide. -/
theorem kernels_deterministic_witness :
    cropAndResize img22 boxFull2 boxIndexZero 1 2 2 1 2 2 1 7 zeros4
      = cropAndResize img22 boxFull2 boxIndexZero 1 2 2 1 2 2 1 7 zeros4 :=
  kernels_deterministic.1 img22 img22 boxFull2 boxFull2 boxIndexZero boxIndexZero
    1 2 2 1 2 2 1 7 7 zeros4 zeros4 rfl rfl rfl rfl rfl

/-- Witness for `inCoord_mapping` at `p1 = 0`, `p2 = 1`, `ext = 4`, `crop = 3`,
`i = 2`. -/
theorem inCoord_mapping_witness :
    inCoordFwd 0 1 4 3 2
        = 0 * (((4:ℕ) : ℚ) - 1) + ((2:ℕ) : ℚ) * ((1 - 0) * (((4:ℕ) : ℚ) - 1) / (((3:ℕ) : ℚ) - 1)) ∧
    inCoordBoxes 0 1 4 3 2
        = 0 * (((4:ℕ) : ℚ) - 1) + ((2:ℕ) : ℚ) * ((1 - 0) * (((4:ℕ) : ℚ) - 1) / (((3:ℕ) : ℚ) - 1)) :=
  (inCoord_mapping 0 1 4 3 2).1 (by decide)

end CropAndResizeOp
